import Mathlib

/-!
Verification of the video-education processing pipeline
(backend/apps/videos): retry policy, pipeline submission, analysis
segment validation, video segmentation, transcription size gate,
transcript/summary upsert, temporary-file sweep, and the per-task
effect on the video lifecycle state.  Every definition is a shallow
embedding of the corresponding Python code.
-/

set_option maxRecDepth 4000

namespace VideoEd

/-! ### Pipeline stages and the Celery retry configuration (tasks/tasks.py)

Each stage is one Celery shared_task.  The decorator argument
max_retries bounds the retries counter; the except-branches call
self.retry(exc=e, countdown=BASE * (self.request.retries + 1)).
-/

inductive Stage where
  | download
  | audioExtraction
  | thumbnail
  | transcription
  | analysis
  | segmentation
deriving DecidableEq, Repr

/-- Decorator of descargar_video_task: shared_task(bind=True, max_retries=3). -/
def descargarMaxRetries : Nat := 3

/-- Decorator of extraer_audio_task: shared_task(bind=True, max_retries=3). -/
def extraerAudioMaxRetries : Nat := 3

/-- Decorator of generar_miniatura_task: shared_task(bind=True, max_retries=3). -/
def generarMiniaturaMaxRetries : Nat := 3

/-- Decorator of transcribir_audio_task: shared_task(bind=True, max_retries=2). -/
def transcribirMaxRetries : Nat := 2

/-- Decorator of analizar_video_task: shared_task(bind=True, max_retries=2). -/
def analizarMaxRetries : Nat := 2

/-- Decorator of segmentar_video_task: shared_task(bind=True, max_retries=2). -/
def segmentarMaxRetries : Nat := 2

/-- The max_retries decorator argument of the task implementing each stage. -/
def taskMaxRetries : Stage → Nat
  | .download => descargarMaxRetries
  | .audioExtraction => extraerAudioMaxRetries
  | .thumbnail => generarMiniaturaMaxRetries
  | .transcription => transcribirMaxRetries
  | .analysis => analizarMaxRetries
  | .segmentation => segmentarMaxRetries

/-- Countdown in descargar_video_task: 60 * (self.request.retries + 1). -/
def descargarCountdown (retries : Nat) : Nat := 60 * (retries + 1)

/-- Countdown in extraer_audio_task: 60 * (self.request.retries + 1). -/
def extraerAudioCountdown (retries : Nat) : Nat := 60 * (retries + 1)

/-- Countdown in generar_miniatura_task: 30 * (self.request.retries + 1). -/
def generarMiniaturaCountdown (retries : Nat) : Nat := 30 * (retries + 1)

/-- Countdown in transcribir_audio_task: 120 * (self.request.retries + 1). -/
def transcribirCountdown (retries : Nat) : Nat := 120 * (retries + 1)

/-- Countdown in analizar_video_task: 180 * (self.request.retries + 1). -/
def analizarCountdown (retries : Nat) : Nat := 180 * (retries + 1)

/-- Countdown in segmentar_video_task: 120 * (self.request.retries + 1). -/
def segmentarCountdown (retries : Nat) : Nat := 120 * (retries + 1)

/-- The countdown each stage's task passes to self.retry, as a function of
the current value of self.request.retries (0 on the first execution). -/
def taskCountdown : Stage → Nat → Nat
  | .download => descargarCountdown
  | .audioExtraction => extraerAudioCountdown
  | .thumbnail => generarMiniaturaCountdown
  | .transcription => transcribirCountdown
  | .analysis => analizarCountdown
  | .segmentation => segmentarCountdown

inductive TaskOutcome where
  | success
  | terminalError
deriving DecidableEq, Repr

/-- Celery execution of one bound task whose body fails on its first
f executions and succeeds afterwards.  maxR is the task's max_retries
and r the current retries counter (self.request.retries).  A failing
execution with r < maxR re-enqueues the task with counter r + 1; with
r = maxR, self.retry raises MaxRetriesExceededError and the error is
terminal.  Returns the number of executions performed and the final
outcome. -/
def celeryExec (maxR : Nat) : Nat → Nat → Nat × TaskOutcome
  | 0, _ => (1, .success)
  | f + 1, r =>
    if r < maxR then
      let rest := celeryExec maxR f (r + 1)
      (rest.1 + 1, rest.2)
    else
      (1, .terminalError)

/-- Number of executions of the stage's task when its body fails on the
first f executions. -/
def attemptsExecuted (s : Stage) (f : Nat) : Nat :=
  (celeryExec (taskMaxRetries s) f 0).1

/-- Final outcome of the stage's task when its body fails on the first
f executions. -/
def runOutcome (s : Stage) (f : Nat) : TaskOutcome :=
  (celeryExec (taskMaxRetries s) f 0).2

/-- Attempt ceiling of every stage according to the retry table of the
spec (section 4.1): ceiling 3 for each of the six stages. -/
def specAttemptCeiling : Stage → Nat := fun _ => 3

/-- Base delay of every stage according to the retry table of the spec
(section 4.1). -/
def specBaseDelay : Stage → Nat
  | .download => 60
  | .audioExtraction => 60
  | .thumbnail => 30
  | .transcription => 120
  | .analysis => 180
  | .segmentation => 120

lemma celeryExec_count (maxR : Nat) :
    ∀ f r, r ≤ maxR → (celeryExec maxR f r).1 = min (f + 1) (maxR + 1 - r) := by
  intro f
  induction f with
  | zero =>
    intro r hr
    simp [celeryExec]
    omega
  | succ f ih =>
    intro r hr
    by_cases h : r < maxR
    · simp [celeryExec, h, ih (r + 1) h]
      omega
    · simp [celeryExec, h]
      omega

lemma celeryExec_outcome (maxR : Nat) :
    ∀ f r, r ≤ maxR → (celeryExec maxR f r).2 =
      if f + r ≤ maxR then TaskOutcome.success else TaskOutcome.terminalError := by
  intro f
  induction f with
  | zero =>
    intro r hr
    simp only [celeryExec]
    rw [if_pos (by omega)]
  | succ f ih =>
    intro r hr
    by_cases h : r < maxR
    · simp only [celeryExec, h, if_true, ih (r + 1) h]
      by_cases h2 : f + (r + 1) ≤ maxR
      · rw [if_pos h2, if_pos (by omega)]
      · rw [if_neg h2, if_neg (by omega)]
    · simp only [celeryExec, h, if_false]
      rw [if_neg (by omega)]

lemma attemptsExecuted_eq (s : Stage) (f : Nat) :
    attemptsExecuted s f = min (f + 1) (taskMaxRetries s + 1) := by
  rw [attemptsExecuted, celeryExec_count _ _ _ (Nat.zero_le _), Nat.sub_zero]

lemma runOutcome_eq (s : Stage) (f : Nat) :
    runOutcome s f =
      if f ≤ taskMaxRetries s then TaskOutcome.success else TaskOutcome.terminalError := by
  rw [runOutcome, celeryExec_outcome _ _ _ (Nat.zero_le _), Nat.add_zero]

/-- Claim C1 as stated is false: descargar_video_task is declared with
max_retries = 3, so with a body that fails on its first 5 executions the
download stage performs 4 attempts, exceeding the ceiling of 3 attempts
that the claim (and the spec's retry table) asserts for every stage. -/
theorem c1_counterexample :
    attemptsExecuted Stage.download 5 = 4 ∧
    ¬ attemptsExecuted Stage.download 5 ≤ 3 ∧
    specAttemptCeiling Stage.download = 3 := by
  decide

/-- Claim C1 (amended): the transcription, analysis and segmentation tasks
(max_retries = 2) each execute at most 3 attempts, while the download,
audio-extraction and thumbnail tasks (max_retries = 3) execute at most 4;
for every stage, once the attempt ceiling is exhausted the outcome is a
terminal error and no further attempt is executed. -/
theorem c1_attempt_ceiling (s : Stage) (f : Nat) :
    attemptsExecuted s f ≤ taskMaxRetries s + 1 ∧
    attemptsExecuted Stage.transcription f ≤ 3 ∧
    attemptsExecuted Stage.analysis f ≤ 3 ∧
    attemptsExecuted Stage.segmentation f ≤ 3 ∧
    attemptsExecuted Stage.download f ≤ 4 ∧
    attemptsExecuted Stage.audioExtraction f ≤ 4 ∧
    attemptsExecuted Stage.thumbnail f ≤ 4 ∧
    (taskMaxRetries s < f →
      runOutcome s f = TaskOutcome.terminalError ∧
      attemptsExecuted s f = taskMaxRetries s + 1) := by
  refine ⟨?_, ?_, ?_, ?_, ?_, ?_, ?_, fun h => ⟨?_, ?_⟩⟩
  · rw [attemptsExecuted_eq]; omega
  · rw [attemptsExecuted_eq]
    simp only [taskMaxRetries, transcribirMaxRetries]
    omega
  · rw [attemptsExecuted_eq]
    simp only [taskMaxRetries, analizarMaxRetries]
    omega
  · rw [attemptsExecuted_eq]
    simp only [taskMaxRetries, segmentarMaxRetries]
    omega
  · rw [attemptsExecuted_eq]
    simp only [taskMaxRetries, descargarMaxRetries]
    omega
  · rw [attemptsExecuted_eq]
    simp only [taskMaxRetries, extraerAudioMaxRetries]
    omega
  · rw [attemptsExecuted_eq]
    simp only [taskMaxRetries, generarMiniaturaMaxRetries]
    omega
  · rw [runOutcome_eq, if_neg (by omega)]
  · rw [attemptsExecuted_eq]; omega

/-- Witness for c1_attempt_ceiling at the transcription stage with a body
failing 5 times: the outcome is terminal and exactly 3 attempts ran. -/
theorem c1_attempt_ceiling_witness :
    runOutcome Stage.transcription 5 = TaskOutcome.terminalError ∧
    attemptsExecuted Stage.transcription 5 = taskMaxRetries Stage.transcription + 1 :=
  (c1_attempt_ceiling Stage.transcription 5).2.2.2.2.2.2.2 (by decide)

/-- Claim C4: for every stage, the countdown the task schedules on its
N-th attempt (1-based, so self.request.retries = N - 1) equals the spec
table's base delay for that stage times N, the base delays being 60s for
download, 60s for audio extraction, 30s for thumbnail, 120s for
transcription, 180s for analysis and 120s for segmentation. -/
theorem c4_linear_backoff (s : Stage) (n : Nat) (h : 1 ≤ n) :
    taskCountdown s (n - 1) = specBaseDelay s * n := by
  cases s <;>
    simp only [taskCountdown, specBaseDelay, descargarCountdown,
      extraerAudioCountdown, generarMiniaturaCountdown, transcribirCountdown,
      analizarCountdown, segmentarCountdown] <;>
    omega

/-- Witness for c4_linear_backoff: second analysis attempt is delayed 360s. -/
theorem c4_linear_backoff_witness :
    taskCountdown Stage.analysis (2 - 1) = specBaseDelay Stage.analysis * 2 :=
  c4_linear_backoff Stage.analysis 2 (by decide)

/-! ### Pipeline submission (views/video_views.py, action procesar)

The view loads the video (get_object, 404 when absent), rejects it when
estado is not 'pendiente', rejects it when url_original is empty, and
otherwise enqueues procesar_video_completo_task and sets
estado = 'procesando'.
-/

structure Video where
  id : Nat
  estado : String
  urlOriginal : String
deriving DecidableEq, Repr

inductive ProcesarRejection where
  | notFound
  | invalidState (estado : String)
  | missingUrl
deriving DecidableEq, Repr

/-- The procesar action of VideoViewSet: guards in source order, then the
video moves to estado 'procesando' and the pipeline task is submitted. -/
def procesar (db : List Video) (pk : Nat) : Except ProcesarRejection Video :=
  match db.find? (fun v => v.id == pk) with
  | none => .error .notFound
  | some v =>
    if v.estado ≠ "pendiente" then .error (.invalidState v.estado)
    else if v.urlOriginal = "" then .error .missingUrl
    else .ok { v with estado := "procesando" }

lemma procesar_isOk_iff (db : List Video) (pk : Nat) :
    (procesar db pk).isOk = true ↔
      ∃ v, db.find? (fun w => w.id == pk) = some v ∧
        v.estado = "pendiente" ∧ v.urlOriginal ≠ "" := by
  unfold procesar
  cases hf : db.find? (fun w => w.id == pk) with
  | none => simp [Except.isOk, Except.toBool]
  | some v =>
    by_cases h1 : v.estado = "pendiente"
    · by_cases h2 : v.urlOriginal = ""
      · simp [h1, h2, Except.isOk, Except.toBool]
      · simp [h1, h2, Except.isOk, Except.toBool]
    · simp [h1, Except.isOk, Except.toBool]

/-- Claim C2 as stated is false: a video whose run has reached terminal
state 'completado' or 'error' cannot be re-submitted; the view rejects
every estado other than 'pendiente', so re-submission after completion or
terminal error fails instead of succeeding. -/
theorem c2_counterexample :
    procesar [{ id := 1, estado := "completado", urlOriginal := "http://v" }] 1 =
      Except.error (ProcesarRejection.invalidState "completado") ∧
    procesar [{ id := 1, estado := "error", urlOriginal := "http://v" }] 1 =
      Except.error (ProcesarRejection.invalidState "error") := by
  exact ⟨rfl, rfl⟩

/-- Claim C2 (amended): submission succeeds exactly when the video exists,
its estado is 'pendiente' and it has a source url; submission while a run
is active fails, and submission after the run reached 'completado' or
terminal 'error' also fails, because only estado 'pendiente' is accepted
and nothing resets a finished video to 'pendiente'. -/
theorem c2_submit_precondition (db : List Video) (pk : Nat) :
    ((procesar db pk).isOk = true ↔
      ∃ v, db.find? (fun w => w.id == pk) = some v ∧
        v.estado = "pendiente" ∧ v.urlOriginal ≠ "") ∧
    (db.find? (fun w => w.id == pk) = none →
      procesar db pk = Except.error ProcesarRejection.notFound) ∧
    (∀ v, db.find? (fun w => w.id == pk) = some v →
      (v.estado = "descargando" ∨ v.estado = "procesando" ∨
       v.estado = "transcribiendo" ∨ v.estado = "analizando" ∨
       v.estado = "segmentando" ∨ v.estado = "completado" ∨
       v.estado = "error") →
      procesar db pk = Except.error (ProcesarRejection.invalidState v.estado)) := by
  refine ⟨procesar_isOk_iff db pk, ?_, ?_⟩
  · intro hf
    unfold procesar
    rw [hf]
  · intro v hf hstate
    have h1 : v.estado ≠ "pendiente" := by
      rcases hstate with h | h | h | h | h | h | h <;> simp [h]
    unfold procesar
    rw [hf]
    simp [h1]

/-- Witness for c2_submit_precondition: a pending video with a url is
accepted; the same video mid-run (estado 'descargando') is rejected. -/
theorem c2_submit_precondition_witness :
    (procesar [{ id := 1, estado := "pendiente", urlOriginal := "http://v" }] 1).isOk = true ∧
    procesar [{ id := 2, estado := "descargando", urlOriginal := "http://v" }] 2 =
      Except.error (ProcesarRejection.invalidState "descargando") := by
  constructor
  · exact (c2_submit_precondition
      [{ id := 1, estado := "pendiente", urlOriginal := "http://v" }] 1).1.mpr
      ⟨{ id := 1, estado := "pendiente", urlOriginal := "http://v" },
        by decide, rfl, by decide⟩
  · exact (c2_submit_precondition
      [{ id := 2, estado := "descargando", urlOriginal := "http://v" }] 2).2.2
      { id := 2, estado := "descargando", urlOriginal := "http://v" }
      (by decide) (Or.inl rfl)

/-! ### Video segmentation (services/video_segmentation_service.py)

segment_video logs 'iniciado', checks the video file, reads the video's
Segmento rows ordered ascending by orden, and processes each row inside
a try/except that logs the failure and continues; afterwards it logs
'completado' with the number of processed segments.  _cut_segment names
the clip segmento_{video.id}_{orden}.mp4 and _generate_segment_thumbnail
captures a frame at timestamp_inicio_seg + duracion_seg / 2 into
thumb_seg_{video.id}_{orden}.jpg.
-/

structure Segmento where
  id : Nat
  orden : Int
  titulo : String
  inicioSeg : Int
  finSeg : Int
  duracionSeg : Int
deriving DecidableEq, Repr

/-- Clip filename used by _cut_segment. -/
def cutSegmentName (videoId : Nat) (orden : Int) : String :=
  "segmento_" ++ toString videoId ++ "_" ++ toString orden ++ ".mp4"

/-- Thumbnail filename used by _generate_segment_thumbnail. -/
def segThumbName (videoId : Nat) (orden : Int) : String :=
  "thumb_seg_" ++ toString videoId ++ "_" ++ toString orden ++ ".jpg"

/-- Frame-capture timestamp of _generate_segment_thumbnail:
timestamp_inicio_seg + duracion_seg / 2, Python true division. -/
def midpointTimestamp (seg : Segmento) : ℚ :=
  (seg.inicioSeg : ℚ) + (seg.duracionSeg : ℚ) / 2

structure SegResult where
  segmentoId : Nat
  titulo : String
  videoPath : String
  thumbnailPath : Option String
  thumbCaptureTs : ℚ
  duracion : Int
deriving DecidableEq, Repr

/-- One iteration of the loop in segment_video.  cutOk abstracts whether
_cut_segment and _update_segment_files raise; thumbOk abstracts whether
the thumbnail file is produced (its failure only yields None, the
segment still counts as processed). -/
def processSegment (videoId : Nat) (cutOk thumbOk : Segmento → Bool)
    (seg : Segmento) : Option SegResult :=
  if cutOk seg then
    some { segmentoId := seg.id, titulo := seg.titulo,
           videoPath := cutSegmentName videoId seg.orden,
           thumbnailPath :=
             if thumbOk seg then some (segThumbName videoId seg.orden) else none,
           thumbCaptureTs := midpointTimestamp seg,
           duracion := seg.duracionSeg }
  else none

structure SegmentationRun where
  resultados : List SegResult
  perSegmentErrors : List Nat
  stageLogs : List (String × String)
  raised : Bool
deriving DecidableEq, Repr

/-- Ascending comparison on the orden field, the order_by('orden') of the
segment query. -/
def ordenLe (a b : Segmento) : Bool := a.orden ≤ b.orden

/-- segment_video of VideoSegmentationService.  The input list segs holds
the video's Segmento rows in arbitrary store order; the query sorts them
by orden.  perSegmentErrors records one error-log entry (the segment id)
for every failed iteration; raised reports whether the stage raised
SegmentationError. -/
def segmentVideo (videoId : Nat) (videoPathExists : Bool) (segs : List Segmento)
    (cutOk thumbOk : Segmento → Bool) : SegmentationRun :=
  if ¬videoPathExists then
    { resultados := [], perSegmentErrors := [],
      stageLogs := [("segmentacion", "iniciado"), ("segmentacion", "error")],
      raised := true }
  else
    let ordered := segs.mergeSort ordenLe
    if ordered.isEmpty then
      { resultados := [], perSegmentErrors := [],
        stageLogs := [("segmentacion", "iniciado")], raised := false }
    else
      { resultados := ordered.filterMap (processSegment videoId cutOk thumbOk),
        perSegmentErrors := (ordered.filter (fun s => !cutOk s)).map (fun s => s.id),
        stageLogs := [("segmentacion", "iniciado"), ("segmentacion", "completado")],
        raised := false }

/-- Successful loop iterations produce exactly the mapped filter. -/
lemma filterMap_processSegment (videoId : Nat) (cutOk thumbOk : Segmento → Bool) :
    ∀ l : List Segmento,
      l.filterMap (processSegment videoId cutOk thumbOk) =
        (l.filter (fun s => cutOk s)).map (fun s =>
          { segmentoId := s.id, titulo := s.titulo,
            videoPath := cutSegmentName videoId s.orden,
            thumbnailPath :=
              if thumbOk s then some (segThumbName videoId s.orden) else none,
            thumbCaptureTs := midpointTimestamp s,
            duracion := s.duracionSeg }) := by
  intro l
  induction l with
  | nil => rfl
  | cons a l ih =>
    by_cases h : cutOk a <;> simp [processSegment, h, ih]

lemma length_filter_add_not (p : Segmento → Bool) (l : List Segmento) :
    (l.filter p).length + (l.filter (fun s => !p s)).length = l.length := by
  induction l with
  | nil => rfl
  | cons a l ih =>
    by_cases h : p a <;> simp [List.filter, h] <;> omega

/-- Claim C3: a segmentation run over K input segments of which j fail
returns exactly K - j clip-and-thumbnail result entries, logs exactly j
per-segment errors, and the stage outcome is success (SegmentationError
is not raised); when every segment fails the stage still succeeds with
zero results, and a nonempty input still gets the final 'completado'
stage log. -/
theorem c3_segmentation_continue_on_error (videoId : Nat) (segs : List Segmento)
    (cutOk thumbOk : Segmento → Bool) :
    (segmentVideo videoId true segs cutOk thumbOk).resultados.length =
      segs.length - (segs.filter (fun s => !cutOk s)).length ∧
    (segmentVideo videoId true segs cutOk thumbOk).perSegmentErrors.length =
      (segs.filter (fun s => !cutOk s)).length ∧
    (segmentVideo videoId true segs cutOk thumbOk).raised = false ∧
    (segs ≠ [] →
      ("segmentacion", "completado") ∈
        (segmentVideo videoId true segs cutOk thumbOk).stageLogs) := by
  have hperm : (segs.mergeSort ordenLe).Perm segs := List.mergeSort_perm segs ordenLe
  have hfilter : ∀ p : Segmento → Bool,
      ((segs.mergeSort ordenLe).filter p).length = (segs.filter p).length :=
    fun p => (hperm.filter p).length_eq
  by_cases hemp : (segs.mergeSort ordenLe).isEmpty = true
  · have hnil : segs = [] := by
      have := hperm.length_eq
      rw [List.isEmpty_iff] at hemp
      rw [hemp] at this
      exact List.eq_nil_of_length_eq_zero this.symm
    subst hnil
    simp [segmentVideo]
  · have hrec : segmentVideo videoId true segs cutOk thumbOk =
        { resultados :=
            (segs.mergeSort ordenLe).filterMap (processSegment videoId cutOk thumbOk),
          perSegmentErrors :=
            ((segs.mergeSort ordenLe).filter (fun s => !cutOk s)).map (fun s => s.id),
          stageLogs := [("segmentacion", "iniciado"), ("segmentacion", "completado")],
          raised := false } := by
      simp only [segmentVideo]
      rw [if_neg (by simp), if_neg hemp]
    refine ⟨?_, ?_, ?_, fun _ => ?_⟩
    · rw [hrec]
      show ((segs.mergeSort ordenLe).filterMap
        (processSegment videoId cutOk thumbOk)).length = _
      rw [filterMap_processSegment, List.length_map, hfilter]
      have h1 := length_filter_add_not (fun s => cutOk s) segs
      have h2 : (segs.filter (fun s => !cutOk s)).length ≤ segs.length :=
        List.length_filter_le _ _
      omega
    · rw [hrec]
      show (((segs.mergeSort ordenLe).filter (fun s => !cutOk s)).map
        (fun s => s.id)).length = _
      rw [List.length_map, hfilter]
    · rw [hrec]
    · rw [hrec]
      simp

/-- Sample segment row used by concrete witnesses. -/
def segEx : Segmento :=
  { id := 4, orden := 1, titulo := "t", inicioSeg := 0, finSeg := 300,
    duracionSeg := 300 }

/-- Witness for c3_segmentation_continue_on_error: one segment that fails
still yields a successful stage with zero results and the final
'completado' stage log. -/
theorem c3_segmentation_continue_on_error_witness :
    (segmentVideo 7 true [segEx] (fun _ => false) (fun _ => true)).resultados.length =
      ([segEx] : List Segmento).length -
        (([segEx] : List Segmento).filter (fun _ => !false)).length ∧
    ("segmentacion", "completado") ∈
      (segmentVideo 7 true [segEx] (fun _ => false) (fun _ => true)).stageLogs := by
  have h := c3_segmentation_continue_on_error 7 [segEx]
    (fun _ => false) (fun _ => true)
  exact ⟨h.1, h.2.2.2 (by simp)⟩

lemma ordenLe_trans : ∀ a b c : Segmento,
    ordenLe a b = true → ordenLe b c = true → ordenLe a c = true := by
  intro a b c hab hbc
  simp only [ordenLe, decide_eq_true_eq] at hab hbc ⊢
  omega

lemma ordenLe_total : ∀ a b : Segmento, (ordenLe a b || ordenLe b a) = true := by
  intro a b
  simp only [ordenLe, Bool.or_eq_true, decide_eq_true_eq]
  omega

lemma segmentVideo_resultados (videoId : Nat) (segs : List Segmento)
    (cutOk thumbOk : Segmento → Bool) :
    (segmentVideo videoId true segs cutOk thumbOk).resultados =
      (segs.mergeSort ordenLe).filterMap (processSegment videoId cutOk thumbOk) := by
  simp only [segmentVideo]
  rw [if_neg (by simp)]
  by_cases hemp : (segs.mergeSort ordenLe).isEmpty = true
  · rw [if_pos hemp]
    rw [List.isEmpty_iff] at hemp
    rw [hemp]
    rfl
  · rw [if_neg hemp]

/-- Claim C6: segment_video iterates the video's segments in ascending
orden order (the sorted query is a permutation of the stored rows), and
every produced result takes its clip name deterministically from
(video id, orden) and captures its thumbnail at the segment midpoint
timestamp_inicio_seg + duracion_seg / 2. -/
theorem c6_segment_order_and_naming (videoId : Nat) (segs : List Segmento)
    (cutOk thumbOk : Segmento → Bool) :
    List.Pairwise (fun a b => a.orden ≤ b.orden) (segs.mergeSort ordenLe) ∧
    (segs.mergeSort ordenLe).Perm segs ∧
    (∀ r ∈ (segmentVideo videoId true segs cutOk thumbOk).resultados,
      ∃ seg, seg ∈ segs ∧ cutOk seg = true ∧
        r.videoPath = cutSegmentName videoId seg.orden ∧
        r.thumbnailPath =
          (if thumbOk seg then some (segThumbName videoId seg.orden) else none) ∧
        r.thumbCaptureTs = (seg.inicioSeg : ℚ) + (seg.duracionSeg : ℚ) / 2) := by
  have hperm : (segs.mergeSort ordenLe).Perm segs := List.mergeSort_perm segs ordenLe
  refine ⟨?_, hperm, ?_⟩
  · exact (List.sorted_mergeSort ordenLe_trans ordenLe_total segs).imp
      (fun h => by simpa [ordenLe, decide_eq_true_eq] using h)
  · intro r hr
    rw [segmentVideo_resultados, filterMap_processSegment] at hr
    obtain ⟨s, hs, hfs⟩ := List.mem_map.mp hr
    obtain ⟨hsMem, hsOk⟩ := List.mem_filter.mp hs
    refine ⟨s, hperm.subset hsMem, hsOk, ?_, ?_, ?_⟩ <;>
      simp [← hfs, midpointTimestamp]

/-- Witness for c6_segment_order_and_naming: the single processed segment
of a one-row run carries the deterministic clip name and the midpoint
capture timestamp. -/
theorem c6_segment_order_and_naming_witness :
    ∃ seg, seg ∈ [segEx] ∧ (fun _ : Segmento => true) seg = true ∧
      ({ segmentoId := 4, titulo := "t", videoPath := cutSegmentName 7 1,
         thumbnailPath := some (segThumbName 7 1),
         thumbCaptureTs := midpointTimestamp segEx,
         duracion := 300 } : SegResult).videoPath = cutSegmentName 7 seg.orden ∧
      ({ segmentoId := 4, titulo := "t", videoPath := cutSegmentName 7 1,
         thumbnailPath := some (segThumbName 7 1),
         thumbCaptureTs := midpointTimestamp segEx,
         duracion := 300 } : SegResult).thumbnailPath =
        (if true then some (segThumbName 7 seg.orden) else none) ∧
      ({ segmentoId := 4, titulo := "t", videoPath := cutSegmentName 7 1,
         thumbnailPath := some (segThumbName 7 1),
         thumbCaptureTs := midpointTimestamp segEx,
         duracion := 300 } : SegResult).thumbCaptureTs =
        (seg.inicioSeg : ℚ) + (seg.duracionSeg : ℚ) / 2 := by
  apply (c6_segment_order_and_naming 7 [segEx]
    (fun _ => true) (fun _ => true)).2.2
  rw [segmentVideo_resultados, filterMap_processSegment]
  simp [segEx, processSegment]

/-! ### Analysis segment validation (services/analysis_service.py)

_validate_segments drops entries missing titulo or a parsable
timestamp pair, drops inverted or negative timestamp pairs, clips the
end to the video duration when one is set, defaults and normalizes the
tipo, clamps the relevance into [1, 10], sorts the survivors by
relevance descending (Python's stable sort), and truncates to
settings.ANALYSIS_MAX_SEGMENTS; no lower bound is applied there.
analizar_video_task then creates one Segmento row per survivor with
orden = 1-based enumeration index.
-/

structure RawSeg where
  titulo : Option String
  descripcion : Option String
  inicio : Option Int
  fin : Option Int
  relevancia : Option ℚ
  tipo : Option String
deriving DecidableEq, Repr

structure ValidSeg where
  titulo : String
  descripcion : String
  inicio : Int
  fin : Int
  duracion : Int
  relevancia : ℚ
  tipo : String
deriving DecidableEq, Repr

def tiposValidos : List String :=
  ["introduccion", "concepto_clave", "ejemplo", "demostracion",
   "conclusion", "ejercicio", "otro"]

/-- One iteration of the validation loop of _validate_segments.  An
Option field set to none stands for an absent key (or a value whose
int()/float() parse raised, which the loop also skips); relevancia none
falls back to the 7.0 default. -/
def validateSegment (videoDur : Option Int) (seg : RawSeg) : Option ValidSeg :=
  match seg.titulo, seg.inicio, seg.fin with
  | some t, some inicio, some fin =>
    if inicio < 0 ∨ fin ≤ inicio then none
    else
      let fin2 := match videoDur with
        | some d => if d ≠ 0 ∧ fin > d then d else fin
        | none => fin
      let duracion := fin2 - inicio
      let tipo0 := seg.tipo.getD "otro"
      let tipo := if tipo0 ∈ tiposValidos then tipo0 else "otro"
      let rel := max 1 (min 10 (seg.relevancia.getD 7))
      some { titulo := t.take 255,
             descripcion := (seg.descripcion.getD "").take 500,
             inicio := inicio, fin := fin2, duracion := duracion,
             relevancia := rel, tipo := tipo }
  | _, _, _ => none

/-- Comparison used for the reverse=True stable sort on relevance. -/
def relGe (a b : ValidSeg) : Bool := b.relevancia ≤ a.relevancia

/-- _validate_segments: validate each entry, sort by relevance
descending, truncate to maxSegments (settings.ANALYSIS_MAX_SEGMENTS). -/
def validateSegments (videoDur : Option Int) (maxSegments : Nat)
    (segs : List RawSeg) : List ValidSeg :=
  ((segs.filterMap (validateSegment videoDur)).mergeSort relGe).take maxSegments

structure SegmentoRow where
  titulo : String
  descripcion : String
  inicio : Int
  fin : Int
  duracion : Int
  orden : Nat
  relevancia : ℚ
  tipo : String
deriving DecidableEq, Repr

/-- Segmento creation loop of analizar_video_task:
for i, seg_data in enumerate(result['segmentos_importantes'], 1). -/
def createSegmentos (valid : List ValidSeg) : List SegmentoRow :=
  valid.mapIdx (fun i s =>
    { titulo := s.titulo, descripcion := s.descripcion, inicio := s.inicio,
      fin := s.fin, duracion := s.duracion, orden := i + 1,
      relevancia := s.relevancia, tipo := s.tipo })

lemma validateSegment_relevancia {d : Option Int} {raw : RawSeg} {s : ValidSeg}
    (h : validateSegment d raw = some s) :
    1 ≤ s.relevancia ∧ s.relevancia ≤ 10 := by
  rcases raw with ⟨tit, desc, ini, fin, rel, tipo⟩
  cases tit with
  | none => simp [validateSegment] at h
  | some t =>
    cases ini with
    | none => simp [validateSegment] at h
    | some i0 =>
      cases fin with
      | none => simp [validateSegment] at h
      | some f0 =>
        by_cases hc : (i0 < 0 ∨ f0 ≤ i0)
        · simp only [validateSegment, if_pos hc] at h
          exact Option.noConfusion h
        · simp only [validateSegment, if_neg hc, Option.some_inj] at h
          subst h
          exact ⟨le_max_left _ _, max_le (by norm_num) (min_le_left _ _)⟩

lemma mem_createSegmentos {l : List ValidSeg} {row : SegmentoRow}
    (h : row ∈ createSegmentos l) : ∃ s ∈ l, row.relevancia = s.relevancia := by
  rw [createSegmentos, List.mapIdx_eq_enum_map] at h
  obtain ⟨p, hp, hrow⟩ := List.mem_map.mp h
  refine ⟨p.2, ?_, ?_⟩
  · have : p.2 ∈ l.enum.map Prod.snd := List.mem_map_of_mem Prod.snd hp
    rwa [List.enum_map_snd] at this
  · rw [← hrow]
    rfl

/-- Claim C5 as stated is false: the configured minimum is never
enforced.  With ANALYSIS_MIN_SEGMENTS = 3 and ANALYSIS_MAX_SEGMENTS = 10
(the range the GPT prompt announces), an analysis run whose model reply
contains no segments creates 0 SegmentRecords, below the minimum. -/
theorem c5_counterexample :
    validateSegments none 10 [] = [] ∧
    (createSegmentos (validateSegments none 10 [])).length = 0 ∧
    ¬ 3 ≤ (createSegmentos (validateSegments none 10 [])).length := by
  have h : validateSegments none 10 [] = [] := by
    simp [validateSegments]
  refine ⟨h, ?_, ?_⟩ <;> rw [h] <;> simp [createSegmentos]

/-- Claim C5 (amended): the SegmentRecords created by an analysis run are
sorted by descending relevance score, their count is truncated to at
most ANALYSIS_MAX_SEGMENTS (no minimum is enforced; the configured
minimum appears only in the model prompt), every created record's
relevance lies in [1, 10], and its orden equals its 1-based position in
the relevance-descending order. -/
theorem c5_analysis_segments (videoDur : Option Int) (maxSegments : Nat)
    (raws : List RawSeg) :
    List.Pairwise (fun a b => b.relevancia ≤ a.relevancia)
      (createSegmentos (validateSegments videoDur maxSegments raws)) ∧
    (createSegmentos (validateSegments videoDur maxSegments raws)).length
      ≤ maxSegments ∧
    (∀ row ∈ createSegmentos (validateSegments videoDur maxSegments raws),
      1 ≤ row.relevancia ∧ row.relevancia ≤ 10) ∧
    (∀ i row,
      (createSegmentos (validateSegments videoDur maxSegments raws))[i]? =
        some row → row.orden = i + 1) := by
  have hrelGe_trans : ∀ a b c : ValidSeg,
      relGe a b = true → relGe b c = true → relGe a c = true := by
    intro a b c hab hbc
    simp only [relGe, decide_eq_true_eq] at hab hbc ⊢
    exact le_trans hbc hab
  have hrelGe_total : ∀ a b : ValidSeg, (relGe a b || relGe b a) = true := by
    intro a b
    simp only [relGe, Bool.or_eq_true, decide_eq_true_eq]
    exact le_total b.relevancia a.relevancia
  have hsorted : List.Pairwise (fun a b : ValidSeg => b.relevancia ≤ a.relevancia)
      (validateSegments videoDur maxSegments raws) := by
    refine List.Pairwise.sublist (List.take_sublist _ _) ?_
    exact (List.sorted_mergeSort hrelGe_trans hrelGe_total _).imp
      (fun h => by simpa [relGe, decide_eq_true_eq] using h)
  refine ⟨?_, ?_, ?_, ?_⟩
  · rw [createSegmentos, List.mapIdx_eq_enum_map]
    rw [List.pairwise_map]
    have := List.pairwise_map (f := (Prod.snd : Nat × ValidSeg → ValidSeg))
      (R := fun a b : ValidSeg => b.relevancia ≤ a.relevancia)
      (l := (validateSegments videoDur maxSegments raws).enum)
    rw [List.enum_map_snd] at this
    exact (this.mp hsorted).imp (fun h => h)
  · rw [createSegmentos, List.length_mapIdx, validateSegments]
    exact List.length_take_le _ _
  · intro row hrow
    obtain ⟨s, hs, hrel⟩ := mem_createSegmentos hrow
    have hs2 : s ∈ (raws.filterMap (validateSegment videoDur)).mergeSort relGe :=
      List.take_subset _ _ hs
    have hs3 : s ∈ raws.filterMap (validateSegment videoDur) :=
      (List.mergeSort_perm _ relGe).subset hs2
    obtain ⟨a, _, ha⟩ := List.mem_filterMap.mp hs3
    rw [hrel]
    exact validateSegment_relevancia ha
  · intro i row h
    simp only [createSegmentos] at h
    obtain ⟨hlt, heq⟩ := List.getElem?_eq_some.mp h
    rw [List.getElem_mapIdx] at heq
    rw [← heq]

/-- Sample raw model segment used by the c5 witness. -/
def rawEx : RawSeg :=
  { titulo := some "a", descripcion := some "d", inicio := some 0,
    fin := some 10, relevancia := some 5, tipo := some "ejemplo" }

/-- The Segmento row the analysis run creates from rawEx. -/
def rowEx : SegmentoRow :=
  { titulo := "a".take 255, descripcion := "d".take 500, inicio := 0,
    fin := 10, duracion := 10, orden := 1, relevancia := 5,
    tipo := "ejemplo" }

/-- Witness for c5_analysis_segments: a single validated raw segment
yields one record with relevance 5 in range and orden 1. -/
theorem c5_analysis_segments_witness :
    (1 ≤ rowEx.relevancia ∧ rowEx.relevancia ≤ 10) ∧ rowEx.orden = 0 + 1 := by
  have hval : createSegmentos (validateSegments none 10 [rawEx]) = [rowEx] := by
    norm_num [validateSegments, validateSegment, createSegmentos, rawEx, rowEx,
      tiposValidos, List.filterMap_cons, List.mergeSort_singleton,
      List.mapIdx_cons]
  constructor
  · exact (c5_analysis_segments none 10 [rawEx]).2.2.1 rowEx
      (by rw [hval]; exact List.mem_singleton.mpr rfl)
  · exact (c5_analysis_segments none 10 [rawEx]).2.2.2 0 rowEx
      (by rw [hval]; rfl)

/-! ### Transcription size gate (services/transcription_service.py)

transcribe checks the audio file, computes
file_size_mb = st_size / (1024 * 1024) and, only when mode == 'api' and
file_size_mb > 25, raises TranscriptionError before any backend call;
otherwise it dispatches to the OpenAI API (mode 'api') or to the local
Whisper model (any other mode). -/

/-- file_size_mb of TranscriptionService.transcribe; the float division
by 2^20 is exact for any realistic size, so ℚ reproduces it. -/
def fileSizeMb (sizeBytes : Nat) : ℚ := (sizeBytes : ℚ) / (1024 * 1024)

structure TranscribeTrace where
  outcome : Except String Unit
  apiCalled : Bool
deriving Repr

/-- TranscriptionService.transcribe.  backendOk abstracts whether the
selected backend (API call or local model) succeeds; apiCalled records
whether the OpenAI client was invoked. -/
def transcribe (mode : String) (fileExists : Bool) (sizeBytes : Nat)
    (backendOk : Bool) : TranscribeTrace :=
  if ¬fileExists then
    { outcome := .error "Archivo de audio no existe", apiCalled := false }
  else if mode = "api" ∧ fileSizeMb sizeBytes > 25 then
    { outcome := .error "Archivo muy grande para API", apiCalled := false }
  else if mode = "api" then
    if backendOk then { outcome := .ok (), apiCalled := true }
    else { outcome := .error "Error en API de OpenAI", apiCalled := true }
  else
    if backendOk then { outcome := .ok (), apiCalled := false }
    else { outcome := .error "Error en transcripcion local", apiCalled := false }

/-- Claim C7: in API mode every existing audio file strictly larger than
25MB is rejected with an error and without invoking the remote API; in
local mode the size gate never applies, the run is independent of the
file size. -/
theorem c7_transcription_size_limit (sizeBytes : Nat) (backendOk : Bool) :
    (25 * 1024 * 1024 < sizeBytes →
      (transcribe "api" true sizeBytes backendOk).outcome =
        Except.error "Archivo muy grande para API" ∧
      (transcribe "api" true sizeBytes backendOk).apiCalled = false) ∧
    transcribe "local" true sizeBytes backendOk =
      transcribe "local" true 0 backendOk := by
  constructor
  · intro hbig
    have hgt : fileSizeMb sizeBytes > 25 := by
      rw [fileSizeMb, gt_iff_lt, lt_div_iff₀ (by norm_num : (0:ℚ) < 1024 * 1024)]
      have hcast : (25 * 1024 * 1024 : ℚ) < (sizeBytes : ℚ) := by
        exact_mod_cast hbig
      linarith
    constructor <;> simp [transcribe, hgt]
  · simp [transcribe]

/-- Witness for c7_transcription_size_limit: a 26MB file in API mode is
rejected without an API call. -/
theorem c7_transcription_size_limit_witness :
    (transcribe "api" true (26 * 1024 * 1024) true).outcome =
      Except.error "Archivo muy grande para API" ∧
    (transcribe "api" true (26 * 1024 * 1024) true).apiCalled = false :=
  (c7_transcription_size_limit (26 * 1024 * 1024) true).1 (by norm_num)

/-! ### Transcript and summary upsert (transcription_service.py and
analysis_service.py)

Both _save_transcription and _save_analysis test whether the one-to-one
related record already exists (hasattr) and then either overwrite its
fields and save, or create a fresh record for the video.  The record
stores are modelled as association lists keyed by video id. -/

structure TransData where
  contenidoCompleto : String
  idiomaDetectado : String
  precisionEstimada : ℚ
  modeloUtilizado : String
deriving DecidableEq, Repr

structure ResumenData where
  resumenCompleto : String
  temasPrincipales : String
  conclusionesClave : String
  puntosImportantes : String
  cantidadPalabras : Nat
  modeloIaUtilizado : String
deriving DecidableEq, Repr

/-- Shared shape of the two save helpers: update in place when a record
for the video exists, otherwise create one. -/
def upsertByVideo {α : Type} (vid : Nat) (data : α) (db : List (Nat × α)) :
    List (Nat × α) :=
  if db.any (fun p => p.1 == vid) then
    db.map (fun p => if p.1 == vid then (vid, data) else p)
  else
    db ++ [(vid, data)]

/-- TranscriptionService._save_transcription. -/
def saveTranscription (vid : Nat) (data : TransData)
    (db : List (Nat × TransData)) : List (Nat × TransData) :=
  upsertByVideo vid data db

/-- AnalysisService._save_analysis. -/
def saveAnalysis (vid : Nat) (data : ResumenData)
    (db : List (Nat × ResumenData)) : List (Nat × ResumenData) :=
  upsertByVideo vid data db

/-- Number of records stored for a video. -/
def countFor {α : Type} (vid : Nat) (db : List (Nat × α)) : Nat :=
  db.countP (fun p => p.1 == vid)

/-- The at-most-one-record-per-video store invariant. -/
def atMostOnePerVideo {α : Type} (db : List (Nat × α)) : Prop :=
  ∀ w, countFor w db ≤ 1

lemma countFor_map_update {α : Type} (vid : Nat) (data : α)
    (db : List (Nat × α)) (w : Nat) :
    countFor w (db.map (fun p => if p.1 == vid then (vid, data) else p)) =
      countFor w db := by
  rw [countFor, List.countP_map, countFor]
  apply List.countP_congr
  intro p hp
  by_cases h : (p.1 == vid) = true
  · have hpv : p.1 = vid := by simpa using h
    simp [Function.comp, if_pos h, hpv]
  · have hpv : ¬ p.1 = vid := by simpa using h
    simp [Function.comp, hpv]

lemma countFor_append_new {α : Type} (vid : Nat) (data : α)
    (db : List (Nat × α)) (w : Nat) :
    countFor w (db ++ [(vid, data)]) =
      countFor w db + (if vid = w then 1 else 0) := by
  by_cases hw : vid = w <;>
    simp [countFor, List.countP_append, List.countP_cons, hw]

lemma countFor_pos_of_any {α : Type} (vid : Nat) :
    ∀ db : List (Nat × α), db.any (fun p => p.1 == vid) = true →
      1 ≤ countFor vid db := by
  intro db
  induction db with
  | nil => intro h; cases h
  | cons p rest ih =>
    intro h
    rw [List.any_cons, Bool.or_eq_true] at h
    rcases h with h | h
    · simp [countFor, List.countP_cons, h]
    · have := ih h
      simp only [countFor, List.countP_cons]
      have h2 : countFor vid rest ≤ rest.countP (fun p => p.1 == vid) := le_refl _
      simp only [countFor] at this
      omega

lemma countFor_zero_of_not_any {α : Type} (vid : Nat)
    (db : List (Nat × α)) (h : db.any (fun p => p.1 == vid) = false) :
    countFor vid db = 0 := by
  rw [countFor, List.countP_eq_zero]
  intro p hp
  rw [List.any_eq_false] at h
  exact h p hp

lemma countFor_upsert_self {α : Type} (vid : Nat) (data : α)
    (db : List (Nat × α)) (hdb : countFor vid db ≤ 1) :
    countFor vid (upsertByVideo vid data db) = 1 := by
  unfold upsertByVideo
  cases hany : db.any (fun p => p.1 == vid) with
  | true =>
    rw [if_pos rfl, countFor_map_update]
    have := countFor_pos_of_any vid db hany
    omega
  | false =>
    rw [if_neg (by simp), countFor_append_new, if_pos rfl,
      countFor_zero_of_not_any vid db hany]

lemma countFor_upsert_other {α : Type} (vid w : Nat) (hne : vid ≠ w)
    (data : α) (db : List (Nat × α)) :
    countFor w (upsertByVideo vid data db) = countFor w db := by
  unfold upsertByVideo
  cases hany : db.any (fun p => p.1 == vid) with
  | true => rw [if_pos rfl, countFor_map_update]
  | false =>
    rw [if_neg (by simp), countFor_append_new, if_neg hne, Nat.add_zero]

lemma atMostOne_upsert {α : Type} (vid : Nat) (data : α)
    (db : List (Nat × α)) (hdb : atMostOnePerVideo db) :
    atMostOnePerVideo (upsertByVideo vid data db) := by
  intro w
  by_cases hw : vid = w
  · subst hw
    rw [countFor_upsert_self vid data db (hdb vid)]
  · rw [countFor_upsert_other vid w hw data db]
    exact hdb w

/-- Claim C8: with stores holding at most one transcript and one summary
record per video, saving a transcription or an analysis keeps the
invariant and leaves exactly one record for the saved video; saving
twice in a row (analysis or transcription re-run) still leaves exactly
one record per video. -/
theorem c8_upsert_single_record (vid : Nat)
    (tdb : List (Nat × TransData)) (rdb : List (Nat × ResumenData))
    (t t2 : TransData) (r r2 : ResumenData)
    (ht : atMostOnePerVideo tdb) (hr : atMostOnePerVideo rdb) :
    atMostOnePerVideo (saveTranscription vid t tdb) ∧
    countFor vid (saveTranscription vid t tdb) = 1 ∧
    countFor vid (saveTranscription vid t2 (saveTranscription vid t tdb)) = 1 ∧
    atMostOnePerVideo (saveAnalysis vid r rdb) ∧
    countFor vid (saveAnalysis vid r rdb) = 1 ∧
    countFor vid (saveAnalysis vid r2 (saveAnalysis vid r rdb)) = 1 := by
  have ht1 := atMostOne_upsert vid t tdb ht
  have hr1 := atMostOne_upsert vid r rdb hr
  refine ⟨ht1, ?_, ?_, hr1, ?_, ?_⟩
  · exact countFor_upsert_self vid t tdb (ht vid)
  · exact countFor_upsert_self vid t2 _ (ht1 vid)
  · exact countFor_upsert_self vid r rdb (hr vid)
  · exact countFor_upsert_self vid r2 _ (hr1 vid)

/-- Witness for c8_upsert_single_record: two transcription saves over an
empty store leave exactly one transcript record, same for summaries. -/
theorem c8_upsert_single_record_witness :
    countFor 1 (saveTranscription 1
      { contenidoCompleto := "b", idiomaDetectado := "es",
        precisionEstimada := 95, modeloUtilizado := "whisper-api" }
      (saveTranscription 1
        { contenidoCompleto := "a", idiomaDetectado := "es",
          precisionEstimada := 95, modeloUtilizado := "whisper-api" } [])) = 1 ∧
    countFor 1 (saveAnalysis 1
      { resumenCompleto := "s2", temasPrincipales := "", conclusionesClave := "",
        puntosImportantes := "", cantidadPalabras := 1, modeloIaUtilizado := "gpt" }
      (saveAnalysis 1
        { resumenCompleto := "s1", temasPrincipales := "", conclusionesClave := "",
          puntosImportantes := "", cantidadPalabras := 1,
          modeloIaUtilizado := "gpt" } [])) = 1 := by
  have h := c8_upsert_single_record 1 [] []
    { contenidoCompleto := "a", idiomaDetectado := "es",
      precisionEstimada := 95, modeloUtilizado := "whisper-api" }
    { contenidoCompleto := "b", idiomaDetectado := "es",
      precisionEstimada := 95, modeloUtilizado := "whisper-api" }
    { resumenCompleto := "s1", temasPrincipales := "", conclusionesClave := "",
      puntosImportantes := "", cantidadPalabras := 1, modeloIaUtilizado := "gpt" }
    { resumenCompleto := "s2", temasPrincipales := "", conclusionesClave := "",
      puntosImportantes := "", cantidadPalabras := 1, modeloIaUtilizado := "gpt" }
    (fun w => by simp [countFor]) (fun w => by simp [countFor])
  exact ⟨h.2.2.1, h.2.2.2.2.2⟩

/-! ### Temporary-file sweep (services/file_cleaner.py)

clean_old_files returns zeros when the temp directory is missing;
otherwise it walks the directory entries, and for every regular file
whose st_mtime is before now - lifetime_hours * 3600 it records the
size, unlinks the file and counts it; it reports the count and the
freed bytes converted to MB rounded to two decimals (Python round,
half to even). -/

structure TempFile where
  name : String
  isFile : Bool
  mtime : ℚ
  size : Nat
deriving DecidableEq, Repr

structure CleanResult where
  deletedCount : Nat
  freedSpaceMb : ℚ
deriving DecidableEq, Repr

/-- Round half to even, the behaviour of Python's round(). -/
def roundHalfEven (x : ℚ) : ℤ :=
  if x - Int.floor x < 1/2 then Int.floor x
  else if x - Int.floor x > 1/2 then Int.floor x + 1
  else if 2 ∣ Int.floor x then Int.floor x else Int.floor x + 1

/-- Python round(x, 2). -/
def round2 (x : ℚ) : ℚ := (roundHalfEven (x * 100) : ℚ) / 100

/-- The deletion test of the loop: regular file with mtime before the
cutoff. -/
def isOldFile (cutoff : ℚ) (f : TempFile) : Bool :=
  f.isFile && decide (f.mtime < cutoff)

/-- The iterdir loop of clean_old_files: accumulates deleted count and
freed bytes and the surviving directory entries. -/
def cleanLoop (cutoff : ℚ) : List TempFile → Nat × Nat × List TempFile
  | [] => (0, 0, [])
  | f :: rest =>
    if isOldFile cutoff f then
      let r := cleanLoop cutoff rest
      (r.1 + 1, f.size + r.2.1, r.2.2)
    else
      let r := cleanLoop cutoff rest
      (r.1, r.2.1, f :: r.2.2)

/-- FileCleaner.clean_old_files over a modelled directory: none stands
for a missing temp directory; now is time.time(). -/
def cleanOldFiles (tempDir : Option (List TempFile)) (now : ℚ)
    (lifetimeHours : Nat) : CleanResult × List TempFile :=
  match tempDir with
  | none => ({ deletedCount := 0, freedSpaceMb := 0 }, [])
  | some files =>
    let cutoff := now - lifetimeHours * 3600
    let r := cleanLoop cutoff files
    ({ deletedCount := r.1,
       freedSpaceMb := round2 ((r.2.1 : ℚ) / (1024 * 1024)) }, r.2.2)

lemma cleanLoop_spec (cutoff : ℚ) (files : List TempFile) :
    cleanLoop cutoff files =
      ((files.filter (isOldFile cutoff)).length,
       ((files.filter (isOldFile cutoff)).map (fun f => f.size)).sum,
       files.filter (fun f => !isOldFile cutoff f)) := by
  induction files with
  | nil => rfl
  | cons f rest ih =>
    by_cases h : isOldFile cutoff f = true
    · simp [cleanLoop, h, ih, List.filter_cons]
    · simp only [Bool.not_eq_true] at h
      simp [cleanLoop, h, ih, List.filter_cons]

/-- Claim C9: the sweep deletes exactly the regular files older than the
configured lifetime (everything else survives), reports their number as
deleted_count and their total size converted to MB (rounded to two
decimals) as freed_space_mb, and a missing temp directory yields
deleted_count 0 and freed_space_mb 0 with nothing deleted. -/
theorem c9_clean_old_files (files : List TempFile) (now : ℚ)
    (lifetimeHours : Nat) :
    (cleanOldFiles (some files) now lifetimeHours).1.deletedCount =
      (files.filter (isOldFile (now - lifetimeHours * 3600))).length ∧
    (cleanOldFiles (some files) now lifetimeHours).2 =
      files.filter (fun f => !isOldFile (now - lifetimeHours * 3600) f) ∧
    (cleanOldFiles (some files) now lifetimeHours).1.freedSpaceMb =
      round2 (((((files.filter (isOldFile (now - lifetimeHours * 3600))).map
        (fun f => f.size)).sum : ℚ)) / (1024 * 1024)) ∧
    cleanOldFiles none now lifetimeHours =
      ({ deletedCount := 0, freedSpaceMb := 0 }, []) := by
  refine ⟨?_, ?_, ?_, rfl⟩
  · simp [cleanOldFiles, cleanLoop_spec]
  · simp [cleanOldFiles, cleanLoop_spec]
  · simp only [cleanOldFiles, cleanLoop_spec]
    congr 1
    push_cast [List.map_map]
    rfl

/-! ### Per-task effect on the video lifecycle state (tasks/tasks.py)

Each task body first loads the video; descarga, audio extraction,
transcription, analysis and segmentation write a stage state at entry
and write estado = 'error' in their except branches.
generar_miniatura_task contains no assignment to video.estado at all:
neither on success nor in its ThumbnailGenerationError or generic
except branches. -/

inductive TaskPath where
  | ok
  | stageError
  | unexpectedError
deriving DecidableEq, Repr

/-- Effect of descargar_video_task on Video.estado. -/
def descargarEstado (p : TaskPath) (estado : String) : String :=
  match p with
  | .ok => "descargando"
  | .stageError => "error"
  | .unexpectedError => "error"

/-- Effect of extraer_audio_task on Video.estado. -/
def extraerAudioEstado (p : TaskPath) (estado : String) : String :=
  match p with
  | .ok => "procesando"
  | .stageError => "error"
  | .unexpectedError => "error"

/-- Effect of transcribir_audio_task on Video.estado. -/
def transcribirEstado (p : TaskPath) (estado : String) : String :=
  match p with
  | .ok => "transcribiendo"
  | .stageError => "error"
  | .unexpectedError => "error"

/-- Effect of analizar_video_task on Video.estado. -/
def analizarEstado (p : TaskPath) (estado : String) : String :=
  match p with
  | .ok => "analizando"
  | .stageError => "error"
  | .unexpectedError => "error"

/-- Effect of segmentar_video_task on Video.estado. -/
def segmentarEstado (p : TaskPath) (estado : String) : String :=
  match p with
  | .ok => "segmentando"
  | .stageError => "error"
  | .unexpectedError => "error"

/-- Effect of generar_miniatura_task on Video.estado: the task never
assigns the field on any path. -/
def generarMiniaturaEstado (p : TaskPath) (estado : String) : String :=
  match p with
  | .ok => estado
  | .stageError => estado
  | .unexpectedError => estado

/-- Claim C10: on every path the thumbnail task leaves Video.estado
unchanged — in particular a thumbnail failure alone never moves the
video to 'error' — whereas every failing path of the five other stage
tasks sets estado to 'error'. -/
theorem c10_thumbnail_estado_frame (estado : String) (p : TaskPath) :
    generarMiniaturaEstado p estado = estado ∧
    (estado ≠ "error" → generarMiniaturaEstado p estado ≠ "error") ∧
    (p ≠ TaskPath.ok →
      descargarEstado p estado = "error" ∧
      extraerAudioEstado p estado = "error" ∧
      transcribirEstado p estado = "error" ∧
      analizarEstado p estado = "error" ∧
      segmentarEstado p estado = "error") := by
  cases p <;>
    simp [generarMiniaturaEstado, descargarEstado, extraerAudioEstado,
      transcribirEstado, analizarEstado, segmentarEstado]

/-- Witness for c10_thumbnail_estado_frame: a failing thumbnail task on a
video in estado 'procesando' leaves it in 'procesando', while a failing
download task would set 'error'. -/
theorem c10_thumbnail_estado_frame_witness :
    generarMiniaturaEstado TaskPath.stageError "procesando" ≠ "error" ∧
    descargarEstado TaskPath.stageError "procesando" = "error" := by
  refine ⟨?_, ?_⟩
  · exact (c10_thumbnail_estado_frame "procesando" TaskPath.stageError).2.1
      (by decide)
  · exact ((c10_thumbnail_estado_frame "procesando" TaskPath.stageError).2.2
      (by decide)).1

end VideoEd
